import Mathlib

/-!
  # Verification of the baileys-api connection lifecycle core

  Shallow embedding of the connection lifecycle manager and webhook
  delivery subsystem of the repository:

  * `src/unnamed/part_001` — class `BaileysConnection` (the per-identity
    Session: reconnect/close state machine, webhook dispatcher, operations).
  * `src/src/baileys/connectionsHandler.ts` — class
    `BaileysConnectionsHandler` (the Registry: identity → Session map).

  External collaborators (the Baileys socket, the Redis credential store,
  HTTP fetch, timers) are modelled as parameters: a socket is a record of
  the fields the code reads, socket creation and webhook attempts take
  their outcomes as explicit arguments, and effects (credential clears,
  close callbacks, webhook posts, socket creations) are recorded in an
  explicit effect list.
-/

namespace BaileysApi

/-- JS `x || d` for an optional string: the empty string is falsy, so it
also falls back to the default. -/
def jsOr (x : Option String) (d : String) : String :=
  match x with
  | some s => if s = "" then d else s
  | none => d

/-- JS `s.includes(pat)`: substring containment on the character list. -/
def jsIncludes (s pat : String) : Bool :=
  decide (pat.toList <:+: s.toList)

/-! ## The Session data model (`BaileysConnection`, part_001 lines 89-115) -/

/-- The fields of the external Baileys socket handle that the code reads:
`socket.user?.id` and `socket.authState.creds.me` (presence of the latter
is all the code tests). -/
structure Socket where
  userId : Option String
  credsMe : Bool
deriving Repr, DecidableEq

/-- `BaileysConnectionOptions` as consumed by the constructor and
`updateOptions`. Optional fields are `Option`; `hasOnConnectionClose`
records whether an on-close callback was supplied. -/
structure ConnOptions where
  clientName : Option String
  webhookUrl : String
  webhookVerifyToken : String
  includeMedia : Option Bool
  syncFullHistory : Option Bool
  isReconnect : Option Bool
  hasOnConnectionClose : Bool
deriving Repr, DecidableEq

/-- The mutable state of one `BaileysConnection` (part_001 lines 89-101).
`clearAuthState` records whether the clear-credentials closure is held
(set by `connect`, dropped by `close`); `clearOnlinePresenceTimeout`
records whether the 60s presence-reset timer is pending. -/
structure Conn where
  phoneNumber : String
  clientName : String
  webhookUrl : String
  webhookVerifyToken : String
  isReconnect : Bool
  includeMedia : Bool
  syncFullHistory : Bool
  hasCloseCb : Bool
  socket : Option Socket
  clearAuthState : Bool
  clearOnlinePresenceTimeout : Bool
  reconnectCount : Nat
deriving Repr, DecidableEq

/-- The constructor (part_001 lines 103-115): `clientName || "Chrome"`,
`includeMedia ?? true`, `syncFullHistory ?? false`, `!!isReconnect`. -/
def mkBaileysConnection (phoneNumber : String) (o : ConnOptions) : Conn :=
  { phoneNumber := phoneNumber
    clientName := jsOr o.clientName "Chrome"
    webhookUrl := o.webhookUrl
    webhookVerifyToken := o.webhookVerifyToken
    isReconnect := o.isReconnect.getD false
    includeMedia := o.includeMedia.getD true
    syncFullHistory := o.syncFullHistory.getD false
    hasCloseCb := o.hasOnConnectionClose
    socket := none
    clearAuthState := false
    clearOnlinePresenceTimeout := false
    reconnectCount := 0 }

/-- `updateOptions` (part_001 lines 136-142): refreshes the five
refreshable options with the same defaulting as the constructor; touches
nothing else. -/
def Conn.updateOptions (c : Conn) (o : ConnOptions) : Conn :=
  { c with
    clientName := jsOr o.clientName "Chrome"
    webhookUrl := o.webhookUrl
    webhookVerifyToken := o.webhookVerifyToken
    includeMedia := o.includeMedia.getD true
    syncFullHistory := o.syncFullHistory.getD false }

/-! ## Session effects and lifecycle operations -/

/-- Observable effects of a Session operation, in program order. -/
inductive SEff where
  | credsCleared
  | closeCb
  | socketCreated
  | socketLogoutCall
  | removeAllEvListeners
  | webhookReconnecting
  | webhookWrongPhone
  | webhookUpdate (conn : Option String)
deriving Repr, DecidableEq

/-- `close` (part_001 lines 234-240): clear credentials if the clear
closure is held, drop it, null the socket, reset `reconnectCount`, invoke
the on-close callback if present. -/
def Conn.close (c : Conn) : Conn × List SEff :=
  let e1 := if c.clearAuthState then [SEff.credsCleared] else []
  let c1 := { c with clearAuthState := false, socket := none, reconnectCount := 0 }
  (c1, e1 ++ (if c1.hasCloseCb then [SEff.closeCb] else []))

/-- `connect` (part_001 lines 144-191). `mkSock` is the outcome of
`makeWASocket`: `none` models a throw. Early-returns if a socket already
exists; otherwise opens the auth state (takes the clear closure), then on
socket-creation failure logs and invokes the on-close callback, on success
stores the socket and attaches listeners. -/
def Conn.connect (c : Conn) (mkSock : Option Socket) : Conn × List SEff :=
  if c.socket.isSome then (c, [])
  else
    let c1 := { c with clearAuthState := true }
    match mkSock with
    | none => (c1, if c1.hasCloseCb then [SEff.closeCb] else [])
    | some s => ({ c1 with socket := some s }, [SEff.socketCreated])

/-- `handleReconnecting` (part_001 lines 558-572): increment
`reconnectCount`; above the ceiling of 10, `close` instead of emitting the
synthetic reconnecting update. -/
def Conn.handleReconnecting (c : Conn) : Conn × List SEff :=
  let c1 := { c with reconnectCount := c.reconnectCount + 1 }
  if c1.reconnectCount > 10 then c1.close
  else (c1, [SEff.webhookReconnecting])

/-- `logout` (part_001 lines 242-253): best-effort socket logout (a
missing socket makes `safeSocket` throw, which the catch swallows), then
`close`. -/
def Conn.logout (c : Conn) : Conn × List SEff :=
  let pre := match c.socket with
    | none => []
    | some _ => [SEff.socketLogoutCall]
  let (c2, effs) := c.close
  (c2, pre ++ effs)

/-! ## The connection-update handler (part_001 lines 378-458) -/

/-- The `@hapi/boom` error attached to a disconnect: the code reads
`error?.output?.statusCode`, `error?.output?.payload?.message` and
`error.message`. `payloadMessage = none` models an absent or falsy
payload message. -/
structure BoomError where
  statusCode : Option Nat
  payloadMessage : Option String
  message : String
deriving Repr, DecidableEq

/-- `Partial<ConnectionState>` as the handler reads it. `qrField` records
whether the `qr` key is present in the payload at all; `qr = some s`
records a truthy qr value. `disconnectErr` collapses
`lastDisconnect?.error`: `none` when either level is undefined. Booleans
model JS truthiness of `isNewLogin` / `isOnline`. -/
structure UpdateData where
  connection : Option String
  qrField : Bool
  qr : Option String
  disconnectErr : Option BoomError
  isNewLogin : Bool
  isOnline : Bool
deriving Repr, DecidableEq

/-- `DisconnectReason.loggedOut` from the Baileys library. -/
def disconnectReasonLoggedOut : Nat := 401

/-- The `shouldReconnect` classification computed at part_001 lines
406-411: recoverable unless the status code is `loggedOut` or the message
is the exhausted-QR marker. -/
def BoomError.shouldReconnect (e : BoomError) : Bool :=
  !(e.statusCode = some disconnectReasonLoggedOut : Bool) &&
    !(jsOr e.payloadMessage e.message = "QR refs attempts ended" : Bool)

/-- Outcome of a raw handler body: normal completion, or a thrown
exception (the `connection === "close"` branch dereferences
`error.message` and throws a TypeError when `lastDisconnect?.error` is
undefined). -/
inductive HRes where
  | ok
  | threw
deriving Repr, DecidableEq

/-- The payload-shaping tail of `handleConnectionUpdate` (part_001 lines
439-457): a truthy qr rewrites the outbound connection to "connecting",
then `isOnline` rewrites it to "open"; a shaped "open" resets
`reconnectCount`; finally the update is forwarded to the webhook. -/
def Conn.shapeAndSend (c : Conn) (data : UpdateData) : Conn × List SEff :=
  let shaped : Option String :=
    if data.isOnline then some "open"
    else if data.qr.isSome then some "connecting"
    else data.connection
  let c1 := if shaped = some "open" then { c with reconnectCount := 0 } else c
  (c1, [SEff.webhookUpdate shaped])

/-- `"+" + id.split("@")[0].split(":")[0]` (part_001 line 429). -/
def phoneNumberFromId (uid : String) : String :=
  "+" ++ ((((uid.splitOn "@").headD "").splitOn ":").headD "")

/-- `handleWrongPhoneNumber` (part_001 lines 549-556): forward the
wrong-phone-number update, remove the connection.update listeners on the
socket if present, then logout. -/
def Conn.handleWrongPhoneNumber (c : Conn) : Conn × List SEff :=
  let pre := [SEff.webhookWrongPhone] ++
    (match c.socket with
     | some _ => [SEff.removeAllEvListeners]
     | none => [])
  let (c2, effs) := c.logout
  (c2, pre ++ effs)

/-- `handleConnectionUpdate` (part_001 lines 378-458), a direct
transliteration. `normalize` is the external
`normalizeBrazilPhoneNumber` helper; `mkSock` is the outcome of the
`makeWASocket` call performed by the nested `this.connect()` on the
recoverable-close path. -/
def Conn.handleConnectionUpdate (normalize : String → String) (c : Conn)
    (data : UpdateData) (mkSock : Option Socket) : Conn × List SEff × HRes :=
  let isReconnecting : Bool :=
    data.isNewLogin ||
      ((data.connection = some "connecting" : Bool) &&
        ((data.qrField && data.qr.isNone) || c.isReconnect))
  if isReconnecting then
    let (c1, e1) := Conn.handleReconnecting { c with isReconnect := false }
    (c1, e1, HRes.ok)
  else if data.connection = some "close" then
    match data.disconnectErr with
    | none => (c, [], HRes.threw)
    | some e =>
      if e.shouldReconnect then
        let (c1, e1) := c.handleReconnecting
        let c2 := { c1 with socket := none }
        let (c3, e2) := c2.connect mkSock
        (c3, e1 ++ e2, HRes.ok)
      else
        let (c1, e1) := c.close
        let (c2, e2) := c1.shapeAndSend data
        (c2, e1 ++ e2, HRes.ok)
  else
    match data.connection, c.socket with
    | some "open", some s =>
      match s.userId with
      | some uid =>
        if uid ≠ "" ∧ normalize (phoneNumberFromId uid) ≠ normalize c.phoneNumber then
          let (c1, e1) := c.handleWrongPhoneNumber
          (c1, e1, HRes.ok)
        else
          let (c1, e1) := c.shapeAndSend data
          (c1, e1, HRes.ok)
      | none =>
        let (c1, e1) := c.shapeAndSend data
        (c1, e1, HRes.ok)
    | _, _ =>
      let (c1, e1) := c.shapeAndSend data
      (c1, e1, HRes.ok)

/-- `withErrorHandling` applied to `handleConnectionUpdate` (part_001
lines 117-134): an exception thrown by the body is caught and logged; the
returned flag records whether an error was logged. -/
def Conn.handleConnectionUpdateWrapped (normalize : String → String) (c : Conn)
    (data : UpdateData) (mkSock : Option Socket) : Conn × List SEff × Bool :=
  match c.handleConnectionUpdate normalize data mkSock with
  | (c1, effs, HRes.ok) => (c1, effs, false)
  | (c1, effs, HRes.threw) => (c1, effs, true)

/-! ## Session operations (part_001 lines 255-376) -/

/-- `safeSocket` (part_001 lines 371-376): a null socket throws
`BaileysNotConnectedError`, modelled as the error case. Every dispatched
operation (sendMessage, readMessages, chatModify, fetchMessageHistory,
sendReceipts, profilePictureUrl, onWhatsApp, sendPresenceUpdate) calls
this first. -/
def Conn.safeSocket (c : Conn) : Except Unit Socket :=
  match c.socket with
  | none => Except.error ()
  | some s => Except.ok s

/-- How far `sendMessage` (part_001 lines 255-314) gets before reaching
the transport: `safeSocket` throw, the malformed-JID rejection, the
connection-not-ready rejection, or the actual `socket.sendMessage` call.
The JID validation (lines 259-263) checks the two adjacent
concatenations of the group and individual suffixes; the readiness check
(line 266) is the truthiness of `socket.user?.id`. -/
inductive SendMessageStage where
  | notConnectedError
  | invalidJidError
  | notReadyError
  | transportSendCalled
deriving Repr, DecidableEq

/-- The guard sequence of `sendMessage`, in program order. -/
def Conn.sendMessageStage (c : Conn) (jid : String) : SendMessageStage :=
  match c.socket with
  | none => SendMessageStage.notConnectedError
  | some s =>
    if jsIncludes jid "@g.us@s.whatsapp.net" || jsIncludes jid "@s.whatsapp.net@g.us" then
      SendMessageStage.invalidJidError
    else
      match s.userId with
      | none => SendMessageStage.notReadyError
      | some uid =>
        if uid = "" then SendMessageStage.notReadyError
        else SendMessageStage.transportSendCalled

/-- Outcome of `sendPresenceUpdate(type, toJid)` with `type =
"available"` (part_001 lines 316-337), as the Registry probe uses it.
`transportFails` is the outcome of the external
`socket.sendPresenceUpdate` call. On success the 60s auto-revert timer is
(re)scheduled. -/
inductive PresenceResult where
  | sent (c : Conn)
  | noop (c : Conn)
  | notConnected
  | transportError
deriving Repr, DecidableEq

/-- `sendPresenceUpdate("available")`: `safeSocket` throw when no socket;
silent no-op when `authState.creds.me` is absent; otherwise the transport
call, whose success schedules the presence-reset timer. -/
def Conn.sendPresenceAvailable (c : Conn) (transportFails : Bool) : PresenceResult :=
  match c.socket with
  | none => PresenceResult.notConnected
  | some s =>
    if !s.credsMe then PresenceResult.noop c
    else if transportFails then PresenceResult.transportError
    else PresenceResult.sent { c with clearOnlinePresenceTimeout := true }

/-! ## The Registry (`BaileysConnectionsHandler`, connectionsHandler.ts) -/

/-- Lookup in the JS `Record<string, BaileysConnection>`. -/
def mapLookup (m : List (String × Conn)) (k : String) : Option Conn :=
  (m.find? (fun p => p.1 == k)).map (fun p => p.2)

/-- JS `delete m[k]`. -/
def mapErase (m : List (String × Conn)) (k : String) : List (String × Conn) :=
  m.filter (fun p => p.1 != k)

/-- JS `m[k] = v`: a Record holds one value per key. -/
def mapInsert (m : List (String × Conn)) (k : String) (v : Conn) :
    List (String × Conn) :=
  mapErase m k ++ [(k, v)]

/-- Result of `BaileysConnectionsHandler.connect`: the updated map,
whether the call resolved (vs. propagated an error) and how many
`BaileysConnection` objects it constructed. -/
structure ConnectOut where
  connections : List (String × Conn)
  resolvedOk : Bool
  sessionsCreated : Nat
deriving Repr, DecidableEq

/-- The creation path of `connect` (connectionsHandler.ts lines 76-88):
construct a Session whose on-close callback deregisters the identity,
await its `connect`, then insert it into the map. If socket creation
failed inside `Session.connect`, the on-close callback already ran —
before the insertion — so its removal is a no-op and the Session is
registered anyway. -/
def handlerCreateAndRegister (m : List (String × Conn)) (p : String)
    (o : ConnOptions) (mkSock : Option Socket) : ConnectOut :=
  let c0 := mkBaileysConnection p { o with hasOnConnectionClose := true }
  let (c1, effs) := c0.connect mkSock
  let m1 := if effs.contains SEff.closeCb then mapErase m p else m
  { connections := mapInsert m1 p c1, resolvedOk := true, sessionsCreated := 1 }

/-- `BaileysConnectionsHandler.connect` (connectionsHandler.ts lines
57-89), big-step: an existing entry gets `updateOptions` and the
presence probe; `BaileysNotConnectedError` from the probe discards the
stale entry and falls through to creation; any other probe error
propagates; success returns. An absent entry goes straight to
creation. -/
def handlerConnect (m : List (String × Conn)) (p : String) (o : ConnOptions)
    (transportFails : Bool) (mkSock : Option Socket) : ConnectOut :=
  match mapLookup m p with
  | some c =>
    let c1 := c.updateOptions o
    match c1.sendPresenceAvailable transportFails with
    | PresenceResult.sent c2 =>
      { connections := mapInsert m p c2, resolvedOk := true, sessionsCreated := 0 }
    | PresenceResult.noop c2 =>
      { connections := mapInsert m p c2, resolvedOk := true, sessionsCreated := 0 }
    | PresenceResult.transportError =>
      { connections := mapInsert m p c1, resolvedOk := false, sessionsCreated := 0 }
    | PresenceResult.notConnected =>
      handlerCreateAndRegister (mapErase (mapInsert m p c1) p) p o mkSock
  | none => handlerCreateAndRegister m p o mkSock

/-! ## Interleaving model of two concurrent `connect` calls (C1)

    `BaileysConnectionsHandler.connect` suspends at two awaits: the
    presence probe (line 62) and `connection.connect()` (line 83). The
    map insertion (line 84) runs only after the latter resumes. Each
    `connect` call is therefore a three-phase coroutine over the shared
    per-identity registry cell; the scheduler picks which call runs its
    next atomic segment. `created` counts `new BaileysConnection`
    constructions for the identity. -/

/-- Outcome of the presence probe await for a call that found an
existing entry. -/
inductive ProbeOutcome where
  | ok
  | notConnected
  | otherError
deriving Repr, DecidableEq

/-- Program counter of one `connect` call, between suspension points. -/
inductive CallPhase where
  | start
  | awaitingProbe
  | awaitingConnect (sid : Nat)
  | done
  | failed
deriving Repr, DecidableEq

/-- The shared state for one identity: its registry cell (a JS Record
holds at most one Session per key), a fresh-id counter, and the count of
Session objects constructed so far. -/
structure RegCore where
  reg : Option Nat
  nextSid : Nat
  created : Nat
deriving Repr, DecidableEq

/-- One atomic segment of `connect` (connectionsHandler.ts lines 57-89):
`start` runs the entry check and either begins the probe or constructs a
Session and begins awaiting `Session.connect`; resuming from the probe
either returns, fails, or deletes the stale entry and constructs a
Session; resuming from `Session.connect` registers the Session. -/
def connectStep (probe : ProbeOutcome) : RegCore → CallPhase → RegCore × CallPhase
  | s, CallPhase.start =>
    match s.reg with
    | some _ => (s, CallPhase.awaitingProbe)
    | none =>
      ({ s with nextSid := s.nextSid + 1, created := s.created + 1 },
       CallPhase.awaitingConnect s.nextSid)
  | s, CallPhase.awaitingProbe =>
    match probe with
    | ProbeOutcome.ok => (s, CallPhase.done)
    | ProbeOutcome.otherError => (s, CallPhase.failed)
    | ProbeOutcome.notConnected =>
      let s1 := { s with reg := none }
      ({ s1 with nextSid := s1.nextSid + 1, created := s1.created + 1 },
       CallPhase.awaitingConnect s1.nextSid)
  | s, CallPhase.awaitingConnect sid => ({ s with reg := some sid }, CallPhase.done)
  | s, CallPhase.done => (s, CallPhase.done)
  | s, CallPhase.failed => (s, CallPhase.failed)

/-- Two `connect` calls for the same identity plus the shared state. -/
structure RaceState where
  core : RegCore
  ph1 : CallPhase
  ph2 : CallPhase
deriving Repr, DecidableEq

/-- Run one scheduler pick: `true` advances call 1, `false` call 2. -/
def raceStep (probe1 probe2 : ProbeOutcome) (s : RaceState) : Bool → RaceState
  | true => { s with core := (connectStep probe1 s.core s.ph1).1
                     ph1 := (connectStep probe1 s.core s.ph1).2 }
  | false => { s with core := (connectStep probe2 s.core s.ph2).1
                      ph2 := (connectStep probe2 s.core s.ph2).2 }

/-- Run a whole schedule. -/
def raceRun (probe1 probe2 : ProbeOutcome) (sched : List Bool) (s : RaceState) :
    RaceState :=
  sched.foldl (raceStep probe1 probe2) s

/-- Both calls at their entry point, empty registry. -/
def raceStart : RaceState :=
  { core := { reg := none, nextSid := 0, created := 0 }
    ph1 := CallPhase.start
    ph2 := CallPhase.start }

/-! ## The webhook dispatcher (`sendToWebhook`, part_001 lines 574-676)

    `sendPayloadToWebhook` wraps `fetch` in try/catch and returns
    `{response}` or `{error}`, so each attempt has one of three
    outcomes. The retry loop runs while `attempt <= maxRetries`,
    returning on the first `response.ok`; after a failed attempt it
    increments `attempt` and, if the budget remains, sleeps
    `delay + jitter` and multiplies `delay` by the backoff factor.
    Delays are exact rationals; `jitter k` is the value of
    `Math.floor(Math.random() * 1000)` drawn before the sleep that
    precedes attempt `k + 1`. -/

/-- Outcome of one `sendPayloadToWebhook` call. -/
inductive AttemptResult where
  | ok
  | httpError
  | netError
deriving Repr, DecidableEq

/-- `config.webhook.retryPolicy`. -/
structure RetryPolicy where
  maxRetries : Nat
  retryInterval : ℚ
  backoffFactor : ℚ
deriving Repr, DecidableEq

/-- Summary of one `sendToWebhook` run: POST attempts performed, the
sleeps between them in order, and whether a 2xx response was returned. -/
structure WebhookRun where
  attemptsMade : Nat
  sleeps : List ℚ
  delivered : Bool
deriving Repr, DecidableEq

/-- The retry loop, fueled by the remaining loop iterations
(`maxRetries + 1 - attempt` at entry, so fuel never runs dry). -/
def webhookGo (pol : RetryPolicy) (results : Nat → AttemptResult)
    (jitter : Nat → Nat) (attempt : Nat) (delay : ℚ) : Nat → WebhookRun
  | 0 => { attemptsMade := 0, sleeps := [], delivered := false }
  | fuel + 1 =>
    match results attempt with
    | AttemptResult.ok => { attemptsMade := 1, sleeps := [], delivered := true }
    | _ =>
      if attempt + 1 ≤ pol.maxRetries then
        let s := delay + (jitter attempt : ℚ)
        let r := webhookGo pol results jitter (attempt + 1)
          (delay * pol.backoffFactor) fuel
        { attemptsMade := r.attemptsMade + 1, sleeps := s :: r.sleeps
          delivered := r.delivered }
      else { attemptsMade := 1, sleeps := [], delivered := false }

/-- `sendToWebhook`: start at attempt 0 with the initial interval. The
function is total — `sendPayloadToWebhook` catches its own errors and
the loop exhausts the budget — so no error reaches the event handler
that triggered the delivery. -/
def sendToWebhookRun (pol : RetryPolicy) (results : Nat → AttemptResult)
    (jitter : Nat → Nat) : WebhookRun :=
  webhookGo pol results jitter 0 pol.retryInterval (pol.maxRetries + 1)

/-! ## The event subscription table (`addEventListeners`, part_001
    lines 193-232) -/

/-- How a handler is attached to the socket event bus: wrapped in
`withErrorHandling`, attached raw, or attached as the passthrough
closure that forwards the event to `sendToWebhook`. -/
inductive HandlerKind where
  | wrapped (name : String)
  | raw (name : String)
  | passthrough
deriving Repr, DecidableEq

/-- The `handledEvents` object (part_001 lines 194-216): `creds.update`
is attached as the bare `saveCreds`; the other five go through
`withErrorHandling`. -/
def handledEvents : List (String × HandlerKind) :=
  [("creds.update", HandlerKind.raw "saveCreds"),
   ("connection.update", HandlerKind.wrapped "handleConnectionUpdate"),
   ("messages.upsert", HandlerKind.wrapped "handleMessagesUpsert"),
   ("messages.update", HandlerKind.wrapped "handleMessagesUpdate"),
   ("message-receipt.update", HandlerKind.wrapped "handleMessageReceiptUpdate"),
   ("messaging-history.set", HandlerKind.wrapped "handleMessagingHistorySet")]

/-- `ALL_BAILEYS_SOCKET_EVENTS` (part_001 lines 57-87). -/
def allBaileysSocketEvents : List String :=
  ["connection.update", "creds.update", "messaging-history.set",
   "chats.upsert", "chats.update", "lid-mapping.update", "chats.delete",
   "presence.update", "contacts.upsert", "contacts.update",
   "messages.delete", "messages.update", "messages.media-update",
   "messages.upsert", "messages.reaction", "message-receipt.update",
   "groups.upsert", "groups.update", "group-participants.update",
   "group.join-request", "blocklist.set", "blocklist.update", "call",
   "labels.edit", "labels.association", "newsletter.reaction",
   "newsletter.view", "newsletter-participants.update",
   "newsletter-settings.update"]

/-- The full subscription table built by `addEventListeners`: the
handled events, then a passthrough subscription for every other socket
event in the configured allow-list (`config.baileys.listenToEvents`). -/
def eventSubscriptions (listenToEvents : List String) :
    List (String × HandlerKind) :=
  handledEvents ++
    ((allBaileysSocketEvents.filter (fun e =>
        !(handledEvents.any (fun h => h.1 == e)) && listenToEvents.contains e)).map
      (fun e => (e, HandlerKind.passthrough)))

/-- Whether an exception thrown inside the attached handler is caught
and logged at the Session boundary: only the `withErrorHandling`
wrapper does that; a raw handler rejects unhandled, and the passthrough
closure has no wrapper (the dispatcher it calls swallows delivery
failures internally, but not exceptions of the closure itself). -/
def caughtAtBoundary : HandlerKind → Bool
  | HandlerKind.wrapped _ => true
  | HandlerKind.raw _ => false
  | HandlerKind.passthrough => false

/-- How many further Session constructions a `connect` call in the given
phase can still perform: one before it has passed the creation point,
none afterwards. -/
def phaseBudget : CallPhase → Nat
  | CallPhase.start => 1
  | CallPhase.awaitingProbe => 1
  | CallPhase.awaitingConnect _ => 0
  | CallPhase.done => 0
  | CallPhase.failed => 0

/-!
  # Theorems

  One theorem per claim of the specification review, with shared helper
  lemmas first.
-/

/-- Registering a Session makes it the one the Registry finds. -/
theorem mapLookup_mapInsert (m : List (String × Conn)) (k : String) (v : Conn) :
    mapLookup (mapInsert m k v) k = some v := by
  induction m with
  | nil => simp [mapInsert, mapErase, mapLookup]
  | cons a m ih =>
    by_cases h : a.1 = k
    · simp only [mapInsert, mapErase] at ih ⊢
      simp [mapLookup, h, ih]
    · simp only [mapInsert, mapErase] at ih ⊢
      simp [mapLookup, h, ih]

/-- One scheduler step cannot raise the number of constructed Sessions
above the remaining construction budget. -/
theorem connectStep_budget (probe : ProbeOutcome) (s : RegCore) (ph : CallPhase) :
    (connectStep probe s ph).1.created + phaseBudget (connectStep probe s ph).2 ≤
      s.created + phaseBudget ph := by
  cases ph with
  | start => cases h : s.reg <;> simp [connectStep, h, phaseBudget]
  | awaitingProbe => cases probe <;> simp [connectStep, phaseBudget]
  | awaitingConnect sid => simp [connectStep, phaseBudget]
  | done => simp [connectStep, phaseBudget]
  | failed => simp [connectStep, phaseBudget]

/-- The two-call construction budget is a run invariant. -/
theorem raceRun_budget (p1 p2 : ProbeOutcome) (sched : List Bool) :
    ∀ s : RaceState,
      s.core.created + phaseBudget s.ph1 + phaseBudget s.ph2 ≤ 2 →
      (raceRun p1 p2 sched s).core.created +
        phaseBudget (raceRun p1 p2 sched s).ph1 +
        phaseBudget (raceRun p1 p2 sched s).ph2 ≤ 2 := by
  induction sched with
  | nil => intro s h; simpa [raceRun] using h
  | cons b sched ih =>
    intro s h
    have hstep : (raceStep p1 p2 s b).core.created +
        phaseBudget (raceStep p1 p2 s b).ph1 +
        phaseBudget (raceStep p1 p2 s b).ph2 ≤ 2 := by
      cases b with
      | true =>
        have h1 := connectStep_budget p1 s.core s.ph1
        simp only [raceStep]
        omega
      | false =>
        have h2 := connectStep_budget p2 s.core s.ph2
        simp only [raceStep]
        omega
    simpa [raceRun] using ih (raceStep p1 p2 s b) hstep

/-- Claim C1 (counterexample): with both calls starting on an empty
registry, the schedule that runs call 2 entry check while call 1 is
still awaiting `Session.connect` constructs two distinct Session objects
for the identity (`created = 2`), both calls resolve, and the map keeps
the second one — refuting that overlapping `connect` calls never create
two Sessions. -/
theorem registry_overlapping_connect_creates_two_sessions :
    raceRun ProbeOutcome.ok ProbeOutcome.ok [true, false, true, false] raceStart =
      { core := { reg := some 1, nextSid := 2, created := 2 }
        ph1 := CallPhase.done, ph2 := CallPhase.done } := by
  decide

/-- Claim C1 (amended): the Registry cell holds at most one Session per
identity at any instant (the map is keyed), and each `connect` call
constructs at most one Session, so any interleaving of two calls
constructs at most two; a second call that arrives only after the first
has registered constructs none; but the overlapping schedule does
construct two distinct Sessions, of which only the most recently
registered remains. -/
theorem registry_connect_race_characterization :
    (∀ (p1 p2 : ProbeOutcome) (sched : List Bool),
        (raceRun p1 p2 sched raceStart).core.created ≤ 2) ∧
    (raceRun ProbeOutcome.ok ProbeOutcome.ok [true, true, false, false]
        raceStart).core.created = 1 ∧
    ((raceRun ProbeOutcome.ok ProbeOutcome.ok [true, false, true, false]
        raceStart).core.created = 2 ∧
     (raceRun ProbeOutcome.ok ProbeOutcome.ok [true, false, true, false]
        raceStart).core.reg = some 1) := by
  refine ⟨fun p1 p2 sched => ?_, by decide, by decide, by decide⟩
  have h := raceRun_budget p1 p2 sched raceStart (by decide)
  omega

/-- Claim C2: evaluation of the code at the failing input. A Session at
`reconnectCount = 10` receives a transport close with a recoverable
reason (status 408, "Connection lost"): `handleReconnecting` breaches the
ceiling and closes the Session (credentials cleared, on-close callback
invoked, so the Registry deregisters it) — and yet the close-event
branch then nulls the socket and calls `connect`, which creates a fresh
transport handle for the already-closed Session instance. -/
theorem ceiling_breach_still_creates_transport :
    (let r := Conn.handleConnectionUpdate id
      { phoneNumber := "+15550001111", clientName := "Chrome", webhookUrl := "u",
        webhookVerifyToken := "t", isReconnect := false, includeMedia := true,
        syncFullHistory := false, hasCloseCb := true,
        socket := some { userId := some "15550001111:1@s.whatsapp.net", credsMe := true },
        clearAuthState := true, clearOnlinePresenceTimeout := false,
        reconnectCount := 10 }
      { connection := some "close", qrField := false, qr := none,
        disconnectErr := some { statusCode := some 408, payloadMessage := none,
                                message := "Connection lost" },
        isNewLogin := false, isOnline := false }
      (some { userId := none, credsMe := false })
     r.2.1 = [SEff.credsCleared, SEff.closeCb, SEff.socketCreated] ∧
     r.1.socket = some { userId := none, credsMe := false } ∧
     r.1.reconnectCount = 0) := by
  decide

/-- With fuel left, the retry loop performs at least one attempt. -/
theorem webhookGo_attempts_pos (pol : RetryPolicy) (results : Nat → AttemptResult)
    (jitter : Nat → Nat) (a : Nat) (d : ℚ) (fuel : Nat) (h : 1 ≤ fuel) :
    1 ≤ (webhookGo pol results jitter a d fuel).attemptsMade := by
  cases fuel with
  | zero => omega
  | succ n =>
    cases hres : results a <;> simp [webhookGo, hres] <;> split <;> simp

/-- The retry loop never makes more attempts than it has fuel. -/
theorem webhookGo_attempts_le (pol : RetryPolicy) (results : Nat → AttemptResult)
    (jitter : Nat → Nat) :
    ∀ (fuel a : Nat) (d : ℚ),
      (webhookGo pol results jitter a d fuel).attemptsMade ≤ fuel := by
  intro fuel
  induction fuel with
  | zero => intro a d; simp [webhookGo]
  | succ n ih =>
    intro a d
    cases hres : results a <;> simp [webhookGo, hres]
    all_goals split
    all_goals simp
    all_goals exact ih (a + 1) (d * pol.backoffFactor)

/-- The sleeps performed by the retry loop, entered at attempt `a` with
current delay `d` and the matching fuel: one sleep before each retry,
of `d` times the backoff factor to the number of earlier retries, plus
that retry's jitter draw. -/
theorem webhookGo_sleeps (pol : RetryPolicy) (results : Nat → AttemptResult)
    (jitter : Nat → Nat) :
    ∀ (fuel a : Nat) (d : ℚ), a + fuel = pol.maxRetries + 1 →
      (webhookGo pol results jitter a d fuel).sleeps =
        (List.range ((webhookGo pol results jitter a d fuel).attemptsMade - 1)).map
          (fun i => d * pol.backoffFactor ^ i + (jitter (a + i) : ℚ)) := by
  intro fuel
  induction fuel with
  | zero => intro a d _; simp [webhookGo]
  | succ n ih =>
    intro a d hinv
    cases hres : results a <;> simp only [webhookGo, hres]
    · simp
    all_goals {
      split
      case isTrue hle =>
        have hn : 1 ≤ n := by omega
        have hpos := webhookGo_attempts_pos pol results jitter (a + 1)
          (d * pol.backoffFactor) n hn
        have hrec := ih (a + 1) (d * pol.backoffFactor) (by omega)
        simp only [hrec]
        obtain ⟨m, hm⟩ : ∃ m,
            (webhookGo pol results jitter (a + 1) (d * pol.backoffFactor)
              n).attemptsMade = m + 1 := ⟨_, (Nat.succ_pred_eq_of_pos hpos).symm⟩
        simp only [hm, Nat.add_sub_cancel, Nat.succ_sub_one,
          List.range_succ_eq_map, List.map_cons, List.map_map, List.cons.injEq]
        refine ⟨by simp, ?_⟩
        apply List.map_congr_left
        intro i _
        simp only [Function.comp_apply, Nat.succ_eq_add_one]
        have harg : a + 1 + i = a + (i + 1) := by omega
        rw [harg, pow_succ]
        ring
      case isFalse hgt => simp
    }

/-- When every attempt within the budget fails, the loop spends all its
fuel and delivers nothing. -/
theorem webhookGo_all_fail (pol : RetryPolicy) (results : Nat → AttemptResult)
    (jitter : Nat → Nat)
    (hres : ∀ k, k ≤ pol.maxRetries → results k ≠ AttemptResult.ok) :
    ∀ (fuel a : Nat) (d : ℚ), a + fuel = pol.maxRetries + 1 →
      (webhookGo pol results jitter a d fuel).attemptsMade = fuel ∧
      (webhookGo pol results jitter a d fuel).delivered = false := by
  intro fuel
  induction fuel with
  | zero => intro a d _; simp [webhookGo]
  | succ n ih =>
    intro a d hinv
    have ha : a ≤ pol.maxRetries := by omega
    cases hr : results a with
    | ok => exact absurd hr (hres a ha)
    | httpError =>
      simp only [webhookGo, hr]
      split
      case isTrue hle =>
        have := ih (a + 1) (d * pol.backoffFactor) (by omega)
        simp [this]
      case isFalse hgt =>
        have hn : n = 0 := by omega
        simp [hn]
    | netError =>
      simp only [webhookGo, hr]
      split
      case isTrue hle =>
        have := ih (a + 1) (d * pol.backoffFactor) (by omega)
        simp [this]
      case isFalse hgt =>
        have hn : n = 0 := by omega
        simp [hn]

/-- When the first 2xx within the budget is at attempt `k0`, the loop
stops there: it makes `k0 + 1 - a` attempts from entry point `a` and
returns the response. -/
theorem webhookGo_first_success (pol : RetryPolicy) (results : Nat → AttemptResult)
    (jitter : Nat → Nat) (k0 : Nat) (hk0 : k0 ≤ pol.maxRetries)
    (hok : results k0 = AttemptResult.ok)
    (hmin : ∀ j, j < k0 → results j ≠ AttemptResult.ok) :
    ∀ (fuel a : Nat) (d : ℚ), a + fuel = pol.maxRetries + 1 → a ≤ k0 →
      (webhookGo pol results jitter a d fuel).attemptsMade = k0 - a + 1 ∧
      (webhookGo pol results jitter a d fuel).delivered = true := by
  intro fuel
  induction fuel with
  | zero => intro a d hinv hak; omega
  | succ n ih =>
    intro a d hinv hak
    by_cases heq : a = k0
    · subst heq
      simp [webhookGo, hok]
    · have halt : a < k0 := by omega
      have hne := hmin a halt
      cases hr : results a with
      | ok => exact absurd hr hne
      | httpError =>
        simp only [webhookGo, hr]
        rw [if_pos (by omega)]
        have := ih (a + 1) (d * pol.backoffFactor) (by omega) (by omega)
        constructor
        · simp only [this.1]; omega
        · simp [this.2]
      | netError =>
        simp only [webhookGo, hr]
        rw [if_pos (by omega)]
        have := ih (a + 1) (d * pol.backoffFactor) (by omega) (by omega)
        constructor
        · simp only [this.1]; omega
        · simp [this.2]

/-- Claim C3: for every payload and retry policy with backoff factor at
least 1, the dispatcher performs at most `maxRetries + 1` POST attempts
and stops at the first 2xx; the sleep before the `(k+1)`-th attempt is
`initialIntervalMs * backoffFactor ^ k` plus that retry's jitter draw
(`Math.floor(Math.random() * 1000)`, a value in `[0, 1000)`); and under
permanent failure it performs exactly `maxRetries + 1` attempts and
returns normally, propagating no error to the Session handler (the model
of `sendToWebhook` is a total function because `sendPayloadToWebhook`
catches its own errors). -/
theorem webhook_retry_contract (pol : RetryPolicy) (results : Nat → AttemptResult)
    (jitter : Nat → Nat) (_hbf : 1 ≤ pol.backoffFactor) :
    (sendToWebhookRun pol results jitter).attemptsMade ≤ pol.maxRetries + 1 ∧
    (sendToWebhookRun pol results jitter).sleeps =
      (List.range ((sendToWebhookRun pol results jitter).attemptsMade - 1)).map
        (fun k => pol.retryInterval * pol.backoffFactor ^ k + (jitter k : ℚ)) ∧
    ((∀ k, k ≤ pol.maxRetries → results k ≠ AttemptResult.ok) →
      (sendToWebhookRun pol results jitter).attemptsMade = pol.maxRetries + 1 ∧
      (sendToWebhookRun pol results jitter).delivered = false) ∧
    (∀ k0, k0 ≤ pol.maxRetries → results k0 = AttemptResult.ok →
      (∀ j, j < k0 → results j ≠ AttemptResult.ok) →
      (sendToWebhookRun pol results jitter).attemptsMade = k0 + 1 ∧
      (sendToWebhookRun pol results jitter).delivered = true) := by
  refine ⟨?_, ?_, ?_, ?_⟩
  · exact webhookGo_attempts_le pol results jitter (pol.maxRetries + 1) 0
      pol.retryInterval
  · have := webhookGo_sleeps pol results jitter (pol.maxRetries + 1) 0
      pol.retryInterval (by omega)
    simpa [sendToWebhookRun] using this
  · intro hall
    exact webhookGo_all_fail pol results jitter hall (pol.maxRetries + 1) 0
      pol.retryInterval (by omega)
  · intro k0 hk0 hok hmin
    have := webhookGo_first_success pol results jitter k0 hk0 hok hmin
      (pol.maxRetries + 1) 0 pol.retryInterval (by omega) (by omega)
    simpa [sendToWebhookRun] using this

/-- Claim C3 (witness): the contract evaluated at the testable-property
instance `maxRetries = 3, initialIntervalMs = 100, backoffFactor = 2`
under permanent failure: exactly 4 attempts, sleeps
`100 + 7, 200 + 7, 400 + 7`, nothing delivered. -/
theorem webhook_retry_contract_witness :
    (sendToWebhookRun { maxRetries := 3, retryInterval := 100, backoffFactor := 2 }
        (fun _ => AttemptResult.httpError) (fun _ => 7)).attemptsMade = 3 + 1 ∧
    (sendToWebhookRun { maxRetries := 3, retryInterval := 100, backoffFactor := 2 }
        (fun _ => AttemptResult.httpError) (fun _ => 7)).delivered = false := by
  exact (webhook_retry_contract
      { maxRetries := 3, retryInterval := 100, backoffFactor := 2 }
      (fun _ => AttemptResult.httpError) (fun _ => 7) (by norm_num)).2.2.1
    (fun k _ => by simp)

/-- Below the ceiling, a reconnect entry just increments the counter and
emits the synthetic reconnecting update. -/
theorem handleReconnecting_below (c : Conn) (h : c.reconnectCount < 10) :
    c.handleReconnecting =
      ({ c with reconnectCount := c.reconnectCount + 1 },
       [SEff.webhookReconnecting]) := by
  simp only [Conn.handleReconnecting]
  rw [if_neg (by omega)]

/-- At the ceiling, a reconnect entry closes the Session. -/
theorem handleReconnecting_ceiling (c : Conn) (h : 10 ≤ c.reconnectCount) :
    c.handleReconnecting =
      ({ c with reconnectCount := 0, socket := none, clearAuthState := false },
       (if c.clearAuthState = true then [SEff.credsCleared] else []) ++
         (if c.hasCloseCb = true then [SEff.closeCb] else [])) := by
  simp only [Conn.handleReconnecting, Conn.close]
  rw [if_pos (by omega)]

/-- Claim C4 (counterexample): a close event with a recoverable reason
(status 408) hitting a Session at `reconnectCount = 10` clears the
stored credentials and invokes the on-close callback (deregistration) —
refuting that a recoverable close never clears credentials and leaves
the Session registered with all other state unchanged. -/
theorem recoverable_close_can_clear_credentials :
    (let r := Conn.handleConnectionUpdate id
      { phoneNumber := "+15550002222", clientName := "Chrome", webhookUrl := "u",
        webhookVerifyToken := "t", isReconnect := false, includeMedia := true,
        syncFullHistory := false, hasCloseCb := true,
        socket := some { userId := some "15550002222:2@s.whatsapp.net", credsMe := true },
        clearAuthState := true, clearOnlinePresenceTimeout := false,
        reconnectCount := 10 }
      { connection := some "close", qrField := false, qr := none,
        disconnectErr := some { statusCode := some 440, payloadMessage := none,
                                message := "Connection was replaced" },
        isNewLogin := false, isOnline := false }
      (some { userId := none, credsMe := false })
     BoomError.shouldReconnect { statusCode := some 440, payloadMessage := none,
                                 message := "Connection was replaced" } = true ∧
     SEff.credsCleared ∈ r.2.1 ∧ SEff.closeCb ∈ r.2.1) := by
  decide

/-- Claim C4 (amended): on a transport close with a recoverable reason,
when the incremented `reconnectCount` stays within the ceiling, the
credentials are not cleared, the Session stays registered (no on-close
callback) and the transport handle is replaced — but `reconnectCount`
is incremented and the credential-clear closure is re-taken, the rest of
the Session state unchanged; when the increment breaches the ceiling,
the Session is closed (credentials cleared, callback invoked) and a new
handle is still created. On a terminal reason the Session is closed:
socket discarded, credentials cleared, on-close callback invoked. -/
theorem close_event_dichotomy (nz : String → String) (c : Conn)
    (data : UpdateData) (e : BoomError) (s : Socket)
    (hconn : data.connection = some "close")
    (hnl : data.isNewLogin = false)
    (herr : data.disconnectErr = some e) :
    (e.shouldReconnect = true → c.reconnectCount < 10 →
      Conn.handleConnectionUpdate nz c data (some s) =
        ({ c with socket := some s, clearAuthState := true,
                  reconnectCount := c.reconnectCount + 1 },
         [SEff.webhookReconnecting, SEff.socketCreated], HRes.ok)) ∧
    (e.shouldReconnect = true → 10 ≤ c.reconnectCount →
      Conn.handleConnectionUpdate nz c data (some s) =
        ({ c with socket := some s, clearAuthState := true, reconnectCount := 0 },
         ((if c.clearAuthState = true then [SEff.credsCleared] else []) ++
            (if c.hasCloseCb = true then [SEff.closeCb] else [])) ++
           [SEff.socketCreated], HRes.ok)) ∧
    (e.shouldReconnect = false →
      (Conn.handleConnectionUpdate nz c data (some s)).1.socket = none ∧
      (Conn.handleConnectionUpdate nz c data (some s)).1.clearAuthState = false ∧
      (Conn.handleConnectionUpdate nz c data (some s)).1.reconnectCount = 0 ∧
      (SEff.credsCleared ∈ (Conn.handleConnectionUpdate nz c data (some s)).2.1 ↔
        c.clearAuthState = true) ∧
      (SEff.closeCb ∈ (Conn.handleConnectionUpdate nz c data (some s)).2.1 ↔
        c.hasCloseCb = true)) := by
  refine ⟨?_, ?_, ?_⟩
  · intro hrec hlt
    simp only [Conn.handleConnectionUpdate, hconn, hnl, herr, hrec,
      handleReconnecting_below c hlt, Conn.connect]
    simp
  · intro hrec hge
    simp only [Conn.handleConnectionUpdate, hconn, hnl, herr, hrec,
      handleReconnecting_ceiling c hge, Conn.connect]
    simp
  · intro hrec
    simp only [Conn.handleConnectionUpdate, hconn, hnl, herr, hrec,
      Conn.close, Conn.shapeAndSend]
    simp

/-- Claim C4 (witness): the dichotomy applied at a concrete recoverable
close below the ceiling: transport replaced, nothing cleared, counter
bumped from 2 to 3. -/
theorem close_event_dichotomy_witness :
    Conn.handleConnectionUpdate id
      { phoneNumber := "+15550003333", clientName := "Chrome", webhookUrl := "u",
        webhookVerifyToken := "t", isReconnect := false, includeMedia := true,
        syncFullHistory := false, hasCloseCb := true,
        socket := some { userId := some "15550003333:3@s.whatsapp.net", credsMe := true },
        clearAuthState := true, clearOnlinePresenceTimeout := false,
        reconnectCount := 2 }
      { connection := some "close", qrField := false, qr := none,
        disconnectErr := some { statusCode := some 515, payloadMessage := none,
                                message := "Stream Errored (restart required)" },
        isNewLogin := false, isOnline := false }
      (some { userId := none, credsMe := false }) =
      ({ phoneNumber := "+15550003333", clientName := "Chrome", webhookUrl := "u",
         webhookVerifyToken := "t", isReconnect := false, includeMedia := true,
         syncFullHistory := false, hasCloseCb := true,
         socket := some { userId := none, credsMe := false },
         clearAuthState := true, clearOnlinePresenceTimeout := false,
         reconnectCount := 3 },
       [SEff.webhookReconnecting, SEff.socketCreated], HRes.ok) := by
  exact (close_event_dichotomy id _ _ _ _ rfl rfl rfl).1 (by decide) (by decide)

/-- Claim C5 (counterexample): the credential-update event is subscribed
with the bare `saveCreds`, not through `withErrorHandling`, so an
exception thrown inside it is not caught and logged at the Session
boundary — refuting that every subscribed event handler is wrapped. -/
theorem creds_update_handler_not_wrapped :
    ("creds.update", HandlerKind.raw "saveCreds") ∈ eventSubscriptions [] ∧
    caughtAtBoundary (HandlerKind.raw "saveCreds") = false := by
  decide

/-- Claim C5 (amended): the five dedicated handlers other than
`creds.update` (connection updates, message batches, message updates,
receipt updates, history snapshots) are wrapped in `withErrorHandling`,
which catches and logs a thrown exception and leaves the Session state
untouched so later events are still handled; the credential-update
handler is attached unwrapped, and passthrough subscriptions are bare
closures into the dispatcher. -/
theorem event_handler_wrapping (les : List String) :
    (∀ e hk, (e, hk) ∈ eventSubscriptions les →
      caughtAtBoundary hk = true ∨
        (e, hk) = ("creds.update", HandlerKind.raw "saveCreds") ∨
        hk = HandlerKind.passthrough) ∧
    (∀ (nz : String → String) (c : Conn) (data : UpdateData) (ms : Option Socket),
      data.connection = some "close" → data.disconnectErr = none →
      data.isNewLogin = false →
      Conn.handleConnectionUpdateWrapped nz c data ms = (c, [], true)) := by
  constructor
  · intro e hk hmem
    simp only [eventSubscriptions, List.mem_append] at hmem
    cases hmem with
    | inl h =>
      simp only [handledEvents, List.mem_cons, List.not_mem_nil, or_false] at h
      rcases h with h | h | h | h | h | h
      · exact Or.inr (Or.inl h)
      all_goals
        rw [Prod.ext_iff] at h
        left
        rw [show hk = (e, hk).2 from rfl, h.2]
        rfl
    | inr h =>
      simp only [List.mem_map] at h
      obtain ⟨ev, _, hev⟩ := h
      right; right
      exact (congrArg Prod.snd hev).symm
  · intro nz c data ms hconn herr hnl
    simp [Conn.handleConnectionUpdateWrapped, Conn.handleConnectionUpdate,
      hconn, herr, hnl]

/-- Claim C5 (witness): the wrapping facts applied at a concrete
allow-list and a concrete throwing input: the connection-update entry is
wrapped, and a close event with no disconnect error (which makes the raw
handler throw) is swallowed with the Session state intact. -/
theorem event_handler_wrapping_witness :
    (caughtAtBoundary (HandlerKind.wrapped "handleConnectionUpdate") = true ∨
      (("connection.update", HandlerKind.wrapped "handleConnectionUpdate") =
        ("creds.update", HandlerKind.raw "saveCreds")) ∨
      HandlerKind.wrapped "handleConnectionUpdate" = HandlerKind.passthrough) ∧
    Conn.handleConnectionUpdateWrapped id
      (mkBaileysConnection "+15550004444"
        { clientName := none, webhookUrl := "u", webhookVerifyToken := "t",
          includeMedia := none, syncFullHistory := none, isReconnect := none,
          hasOnConnectionClose := false })
      { connection := some "close", qrField := false, qr := none,
        disconnectErr := none, isNewLogin := false, isOnline := false } none =
      (mkBaileysConnection "+15550004444"
        { clientName := none, webhookUrl := "u", webhookVerifyToken := "t",
          includeMedia := none, syncFullHistory := none, isReconnect := none,
          hasOnConnectionClose := false }, [], true) := by
  constructor
  · exact (event_handler_wrapping ["call"]).1 "connection.update"
      (HandlerKind.wrapped "handleConnectionUpdate") (by decide)
  · exact (event_handler_wrapping ["call"]).2 id _ _ none rfl rfl rfl

/-- Claim C6: for an identity with a registered Session, `connect`
creates no new Session when the probe succeeds (it only refreshes the
options and pings presence); a probe failing with the not-connected
error discards the stale entry and creates and registers a fresh
Session; any other probe failure propagates with the entry (options
refreshed) left in place. -/
theorem registry_connect_idempotent (m : List (String × Conn)) (p : String)
    (o : ConnOptions) (c : Conn) (tf : Bool) (mkSock : Option Socket)
    (hm : mapLookup m p = some c) :
    (∀ s, c.socket = some s → (s.credsMe = false ∨ tf = false) →
      (handlerConnect m p o tf mkSock).sessionsCreated = 0 ∧
      (handlerConnect m p o tf mkSock).resolvedOk = true) ∧
    (∀ s, c.socket = some s → s.credsMe = true → tf = true →
      (handlerConnect m p o tf mkSock).resolvedOk = false ∧
      (handlerConnect m p o tf mkSock).sessionsCreated = 0 ∧
      mapLookup (handlerConnect m p o tf mkSock).connections p =
        some (c.updateOptions o)) ∧
    (c.socket = none →
      (handlerConnect m p o tf mkSock).sessionsCreated = 1 ∧
      (handlerConnect m p o tf mkSock).resolvedOk = true ∧
      mapLookup (handlerConnect m p o tf mkSock).connections p =
        some ((mkBaileysConnection p
          { o with hasOnConnectionClose := true }).connect mkSock).1) := by
  refine ⟨?_, ?_, ?_⟩
  · intro s hs hor
    have hsock : (c.updateOptions o).socket = some s := hs
    cases hor with
    | inl hcm =>
      simp [handlerConnect, hm, Conn.sendPresenceAvailable, hsock, hcm]
    | inr htf =>
      subst htf
      by_cases hcm : s.credsMe <;>
        simp [handlerConnect, hm, Conn.sendPresenceAvailable, hsock, hcm]
  · intro s hs hcm htf
    have hsock : (c.updateOptions o).socket = some s := hs
    subst htf
    refine ⟨?_, ?_, ?_⟩ <;>
      simp [handlerConnect, hm, Conn.sendPresenceAvailable, hsock, hcm,
        mapLookup_mapInsert]
  · intro hs
    have hsock : (c.updateOptions o).socket = none := hs
    refine ⟨?_, ?_, ?_⟩ <;>
      simp [handlerConnect, hm, Conn.sendPresenceAvailable, hsock,
        handlerCreateAndRegister, mapLookup_mapInsert]

/-- Claim C6 (witness): the idempotence facts at a concrete registry: a
live Session (socket with credentials) is probed and no Session is
created, and a stale one (no socket) is replaced by one fresh
Session. -/
theorem registry_connect_idempotent_witness :
    ((handlerConnect
        [("+15550005555",
          { phoneNumber := "+15550005555", clientName := "Chrome",
            webhookUrl := "u", webhookVerifyToken := "t", isReconnect := false,
            includeMedia := true, syncFullHistory := false, hasCloseCb := true,
            socket := some { userId := some "x", credsMe := true },
            clearAuthState := true, clearOnlinePresenceTimeout := false,
            reconnectCount := 0 })]
        "+15550005555"
        { clientName := some "Client", webhookUrl := "u2",
          webhookVerifyToken := "t2", includeMedia := some false,
          syncFullHistory := some true, isReconnect := none,
          hasOnConnectionClose := false }
        false none).sessionsCreated = 0 ∧
     (handlerConnect
        [("+15550005555",
          { phoneNumber := "+15550005555", clientName := "Chrome",
            webhookUrl := "u", webhookVerifyToken := "t", isReconnect := false,
            includeMedia := true, syncFullHistory := false, hasCloseCb := true,
            socket := some { userId := some "x", credsMe := true },
            clearAuthState := true, clearOnlinePresenceTimeout := false,
            reconnectCount := 0 })]
        "+15550005555"
        { clientName := some "Client", webhookUrl := "u2",
          webhookVerifyToken := "t2", includeMedia := some false,
          syncFullHistory := some true, isReconnect := none,
          hasOnConnectionClose := false }
        false none).resolvedOk = true) := by
  exact (registry_connect_idempotent _ _ _
      { phoneNumber := "+15550005555", clientName := "Chrome",
        webhookUrl := "u", webhookVerifyToken := "t", isReconnect := false,
        includeMedia := true, syncFullHistory := false, hasCloseCb := true,
        socket := some { userId := some "x", credsMe := true },
        clearAuthState := true, clearOnlinePresenceTimeout := false,
        reconnectCount := 0 } _ _ (by decide)).1
    { userId := some "x", credsMe := true } rfl (Or.inr rfl)

/-- Claim C7 (counterexample): a target address that carries both the
group suffix and the individual-chat suffix, but not as one adjacent
concatenation, passes the validation and reaches the transport send —
refuting that every address carrying both suffixes is rejected before a
transport operation. -/
theorem send_message_both_suffixes_not_rejected :
    jsIncludes "123@g.us,456@s.whatsapp.net" "@g.us" = true ∧
    jsIncludes "123@g.us,456@s.whatsapp.net" "@s.whatsapp.net" = true ∧
    Conn.sendMessageStage
      { phoneNumber := "+15550006666", clientName := "Chrome", webhookUrl := "u",
        webhookVerifyToken := "t", isReconnect := false, includeMedia := true,
        syncFullHistory := false, hasCloseCb := true,
        socket := some { userId := some "15550006666:1@s.whatsapp.net", credsMe := true },
        clearAuthState := true, clearOnlinePresenceTimeout := false,
        reconnectCount := 0 }
      "123@g.us,456@s.whatsapp.net" = SendMessageStage.transportSendCalled := by
  decide

/-- Claim C7 (amended): `sendMessage` rejects, before any transport send
operation, exactly the addresses containing one of the two adjacent
concatenations of the group and individual suffixes
("@g.us@s.whatsapp.net" or "@s.whatsapp.net@g.us") as a substring; the
rejection happens between the socket-null check and the readiness
check, so no transport call is reached. -/
theorem send_message_rejects_concatenated_suffixes (c : Conn) (s : Socket)
    (jid : String) (hs : c.socket = some s)
    (hj : (jsIncludes jid "@g.us@s.whatsapp.net" ||
           jsIncludes jid "@s.whatsapp.net@g.us") = true) :
    c.sendMessageStage jid = SendMessageStage.invalidJidError := by
  simp [Conn.sendMessageStage, hs, hj]

/-- Claim C7 (witness): a malformed concatenated address on a connected
socket is rejected before the transport. -/
theorem send_message_rejects_concatenated_suffixes_witness :
    Conn.sendMessageStage
      { phoneNumber := "+15550007777", clientName := "Chrome", webhookUrl := "u",
        webhookVerifyToken := "t", isReconnect := false, includeMedia := true,
        syncFullHistory := false, hasCloseCb := true,
        socket := some { userId := some "15550007777:1@s.whatsapp.net", credsMe := true },
        clearAuthState := true, clearOnlinePresenceTimeout := false,
        reconnectCount := 0 }
      "123@g.us@s.whatsapp.net" = SendMessageStage.invalidJidError := by
  exact send_message_rejects_concatenated_suffixes _
    { userId := some "15550007777:1@s.whatsapp.net", credsMe := true }
    "123@g.us@s.whatsapp.net" rfl (by decide)

/-- Claim C8 (counterexample): a bare online/liveness ping — no
`connection` field, `isOnline = true` — is shaped to an "open" outbound
payload, and the reset reads the shaped value: a Session at
`reconnectCount = 5` has its counter reset to 0 by an event that enters
neither RECONNECTING nor OPEN nor CLOSED — refuting that no
payload-shaping changes the counter. -/
theorem online_ping_resets_reconnect_count :
    (let r := Conn.handleConnectionUpdate id
      { phoneNumber := "+15550008888", clientName := "Chrome", webhookUrl := "u",
        webhookVerifyToken := "t", isReconnect := false, includeMedia := true,
        syncFullHistory := false, hasCloseCb := true,
        socket := some { userId := some "15550008888:1@s.whatsapp.net", credsMe := true },
        clearAuthState := true, clearOnlinePresenceTimeout := false,
        reconnectCount := 5 }
      { connection := none, qrField := false, qr := none, disconnectErr := none,
        isNewLogin := false, isOnline := true } none
     r.1.reconnectCount = 0 ∧
     r.2.1 = [SEff.webhookUpdate (some "open")]) := by
  decide

/-- Claim C8 (amended): `reconnectCount` is incremented on each entry
into RECONNECTING — the new-login/connecting trigger and the
recoverable-close trigger alike — with a ceiling breach resetting it to
0 through the forced close; it is reset to 0 on a terminal close, on a
connection update whose original or shaped connection is "open" —
including an online/liveness ping that is merely shaped to "open"
without a state transition — and it is unchanged by a quiet update
(no connection field, not an online ping, not a reconnect trigger). -/
theorem reconnect_count_characterization (nz : String → String) (c : Conn)
    (data : UpdateData) (ms : Option Socket) :
    (((data.isNewLogin ||
        ((data.connection = some "connecting" : Bool) &&
          ((data.qrField && data.qr.isNone) || c.isReconnect))) = true) →
      (Conn.handleConnectionUpdate nz c data ms).1.reconnectCount =
        (if c.reconnectCount + 1 > 10 then 0 else c.reconnectCount + 1)) ∧
    (∀ e, data.isNewLogin = false → data.connection = some "close" →
      data.disconnectErr = some e → e.shouldReconnect = true →
      (Conn.handleConnectionUpdate nz c data ms).1.reconnectCount =
        (if c.reconnectCount + 1 > 10 then 0 else c.reconnectCount + 1)) ∧
    (∀ e, data.isNewLogin = false → data.connection = some "close" →
      data.disconnectErr = some e → e.shouldReconnect = false →
      (Conn.handleConnectionUpdate nz c data ms).1.reconnectCount = 0) ∧
    (data.isNewLogin = false → data.connection = some "open" → data.qr = none →
      (Conn.handleConnectionUpdate nz c data ms).1.reconnectCount = 0) ∧
    (data.isNewLogin = false → data.connection = none → data.isOnline = true →
      (Conn.handleConnectionUpdate nz c data ms).1.reconnectCount = 0) ∧
    (data.isNewLogin = false → data.connection = none → data.isOnline = false →
      (Conn.handleConnectionUpdate nz c data ms).1.reconnectCount =
        c.reconnectCount) := by
  refine ⟨?_, ?_, ?_, ?_, ?_, ?_⟩
  · intro hb
    simp only [Conn.handleConnectionUpdate, hb, if_true]
    by_cases hc : c.reconnectCount < 10
    · rw [handleReconnecting_below _ (by simpa using hc)]
      simp
      rw [if_neg (by omega)]
    · rw [handleReconnecting_ceiling _ (by simp; omega)]
      simp
      rw [if_pos (by omega)]
  · intro e hnl hconn herr hrec
    simp only [Conn.handleConnectionUpdate, hnl, hconn, herr, hrec]
    by_cases hc : c.reconnectCount < 10
    · rw [if_neg (show ¬ (c.reconnectCount + 1 > 10) by omega)]
      rw [handleReconnecting_below c hc]
      simp [Conn.connect]
      split <;> rfl
    · rw [if_pos (show c.reconnectCount + 1 > 10 by omega)]
      rw [handleReconnecting_ceiling c (by omega)]
      simp [Conn.connect]
      split <;> rfl
  · intro e hnl hconn herr hrec
    simp only [Conn.handleConnectionUpdate, hnl, hconn, herr, hrec,
      Conn.close, Conn.shapeAndSend]
    simp
  · intro hnl hconn hq
    rcases hsk : c.socket with _ | s
    · simp [Conn.handleConnectionUpdate, hnl, hconn, hq, hsk, Conn.shapeAndSend]
    · rcases hu : s.userId with _ | uid
      · simp [Conn.handleConnectionUpdate, hnl, hconn, hq, hsk, hu,
          Conn.shapeAndSend]
      · simp [Conn.handleConnectionUpdate, hnl, hconn, hq, hsk, hu]
        split
        · simp [Conn.handleWrongPhoneNumber, Conn.logout, Conn.close, hsk]
        · simp [Conn.shapeAndSend, hq, hconn]
  · intro hnl hconn hon
    simp only [Conn.handleConnectionUpdate, hnl, hconn, hon, Conn.shapeAndSend]
    simp
  · intro hnl hconn hon
    simp only [Conn.handleConnectionUpdate, hnl, hconn, hon, Conn.shapeAndSend]
    simp

/-- Claim C8 (witness): the characterization at a concrete Session and
event: a quiet contacts-style update (no connection field, offline)
leaves the counter at 4. -/
theorem reconnect_count_characterization_witness :
    (Conn.handleConnectionUpdate id
      { phoneNumber := "+15550009999", clientName := "Chrome", webhookUrl := "u",
        webhookVerifyToken := "t", isReconnect := false, includeMedia := true,
        syncFullHistory := false, hasCloseCb := true,
        socket := some { userId := some "15550009999:1@s.whatsapp.net", credsMe := true },
        clearAuthState := true, clearOnlinePresenceTimeout := false,
        reconnectCount := 4 }
      { connection := none, qrField := false, qr := none, disconnectErr := none,
        isNewLogin := false, isOnline := false } none).1.reconnectCount = 4 := by
  exact (reconnect_count_characterization id _ _ none).2.2.2.2.2 rfl rfl rfl

/-- Claim C9: when socket creation throws during `connect` for an
unregistered identity, `Session.connect` catches it and fires the
on-close callback before the handler has inserted the entry, so the
removal is a no-op; the handler then registers the Session anyway and
resolves. The registered Session has a null transport handle:
`safeSocket` fails, so every dispatched operation (here `sendMessage`)
fails with `BaileysNotConnectedError` even though the registry lookup
succeeds. -/
theorem failed_socket_creation_registers_dead_session
    (m : List (String × Conn)) (p : String) (o : ConnOptions) (tf : Bool)
    (hm : mapLookup m p = none) :
    (handlerConnect m p o tf none).resolvedOk = true ∧
    (handlerConnect m p o tf none).sessionsCreated = 1 ∧
    mapLookup (handlerConnect m p o tf none).connections p =
      some { mkBaileysConnection p { o with hasOnConnectionClose := true } with
             clearAuthState := true } ∧
    ({ mkBaileysConnection p { o with hasOnConnectionClose := true } with
       clearAuthState := true } : Conn).socket = none ∧
    ({ mkBaileysConnection p { o with hasOnConnectionClose := true } with
       clearAuthState := true } : Conn).safeSocket = Except.error () ∧
    (∀ jid, ({ mkBaileysConnection p { o with hasOnConnectionClose := true } with
       clearAuthState := true } : Conn).sendMessageStage jid =
        SendMessageStage.notConnectedError) := by
  refine ⟨?_, ?_, ?_, rfl, rfl, fun jid => rfl⟩ <;>
    simp [handlerConnect, hm, handlerCreateAndRegister, Conn.connect,
      mkBaileysConnection, mapLookup_mapInsert]

/-- Claim C9 (witness): the dead-session registration on the empty
registry at a concrete identity and options. -/
theorem failed_socket_creation_registers_dead_session_witness :
    (handlerConnect [] "+15551110000"
      { clientName := none, webhookUrl := "http://wh", webhookVerifyToken := "tok",
        includeMedia := none, syncFullHistory := none, isReconnect := none,
        hasOnConnectionClose := false } false none).resolvedOk = true ∧
    (handlerConnect [] "+15551110000"
      { clientName := none, webhookUrl := "http://wh", webhookVerifyToken := "tok",
        includeMedia := none, syncFullHistory := none, isReconnect := none,
        hasOnConnectionClose := false } false none).sessionsCreated = 1 := by
  have h := failed_socket_creation_registers_dead_session [] "+15551110000"
    { clientName := none, webhookUrl := "http://wh", webhookVerifyToken := "tok",
      includeMedia := none, syncFullHistory := none, isReconnect := none,
      hasOnConnectionClose := false } false rfl
  exact ⟨h.1, h.2.1⟩

/-- Claim C10 (counterexample): providing `clientName` as the empty
string does not store the provided value — the JS falsy-or default
kicks in and stores "Chrome" — refuting that each refreshable option is
overwritten with the provided value whenever the field is present. -/
theorem update_options_empty_client_name_falls_back :
    (Conn.updateOptions
      { phoneNumber := "+15552220000", clientName := "Firefox", webhookUrl := "u",
        webhookVerifyToken := "t", isReconnect := false, includeMedia := true,
        syncFullHistory := false, hasCloseCb := true, socket := none,
        clearAuthState := false, clearOnlinePresenceTimeout := false,
        reconnectCount := 0 }
      { clientName := some "", webhookUrl := "u2", webhookVerifyToken := "t2",
        includeMedia := none, syncFullHistory := none, isReconnect := none,
        hasOnConnectionClose := false }).clientName = "Chrome" ∧
    (some "" : Option String) = some "" ∧
    (Conn.updateOptions
      { phoneNumber := "+15552220000", clientName := "Firefox", webhookUrl := "u",
        webhookVerifyToken := "t", isReconnect := false, includeMedia := true,
        syncFullHistory := false, hasCloseCb := true, socket := none,
        clearAuthState := false, clearOnlinePresenceTimeout := false,
        reconnectCount := 0 }
      { clientName := some "", webhookUrl := "u2", webhookVerifyToken := "t2",
        includeMedia := none, syncFullHistory := none, isReconnect := none,
        hasOnConnectionClose := false }).clientName ≠
      Option.getD (some "") "Chrome" := by
  decide

/-- Claim C10 (amended): `updateOptions` overwrites each refreshable
option with the provided value — except that a provided empty
`clientName`, being falsy, also falls back to "Chrome" — or with its
default when the field is omitted (`clientName` "Chrome", `includeMedia`
true, `syncFullHistory` false), and it leaves the identity, the on-close
callback, `reconnectCount`, the transport handle, the credential-clear
closure, the one-shot reconnect flag and the pending presence-reset
timer unchanged. -/
theorem update_options_characterization (c : Conn) (o : ConnOptions) :
    ((c.updateOptions o).phoneNumber = c.phoneNumber ∧
     (c.updateOptions o).hasCloseCb = c.hasCloseCb ∧
     (c.updateOptions o).reconnectCount = c.reconnectCount ∧
     (c.updateOptions o).socket = c.socket ∧
     (c.updateOptions o).clearAuthState = c.clearAuthState ∧
     (c.updateOptions o).isReconnect = c.isReconnect ∧
     (c.updateOptions o).clearOnlinePresenceTimeout =
       c.clearOnlinePresenceTimeout) ∧
    ((c.updateOptions o).webhookUrl = o.webhookUrl ∧
     (c.updateOptions o).webhookVerifyToken = o.webhookVerifyToken) ∧
    ((∀ b, o.includeMedia = some b → (c.updateOptions o).includeMedia = b) ∧
     (o.includeMedia = none → (c.updateOptions o).includeMedia = true)) ∧
    ((∀ b, o.syncFullHistory = some b → (c.updateOptions o).syncFullHistory = b) ∧
     (o.syncFullHistory = none → (c.updateOptions o).syncFullHistory = false)) ∧
    ((∀ nm, o.clientName = some nm → nm ≠ "" →
        (c.updateOptions o).clientName = nm) ∧
     ((o.clientName = none ∨ o.clientName = some "") →
        (c.updateOptions o).clientName = "Chrome")) := by
  refine ⟨⟨rfl, rfl, rfl, rfl, rfl, rfl, rfl⟩, ⟨rfl, rfl⟩, ⟨?_, ?_⟩, ⟨?_, ?_⟩,
    ?_, ?_⟩
  · intro b hb; simp [Conn.updateOptions, hb]
  · intro hb; simp [Conn.updateOptions, hb]
  · intro b hb; simp [Conn.updateOptions, hb]
  · intro hb; simp [Conn.updateOptions, hb]
  · intro nm hnm hne; simp [Conn.updateOptions, jsOr, hnm, hne]
  · intro hnm
    cases hnm with
    | inl h => simp [Conn.updateOptions, jsOr, h]
    | inr h => simp [Conn.updateOptions, jsOr, h]

/-- Claim C10 (witness): the characterization at concrete values: a
non-empty provided client name is stored, the omitted flags take their
defaults, and the socket field survives untouched. -/
theorem update_options_characterization_witness :
    (Conn.updateOptions
      { phoneNumber := "+15553330000", clientName := "Chrome", webhookUrl := "u",
        webhookVerifyToken := "t", isReconnect := false, includeMedia := false,
        syncFullHistory := true, hasCloseCb := true,
        socket := some { userId := some "x", credsMe := true },
        clearAuthState := true, clearOnlinePresenceTimeout := true,
        reconnectCount := 7 }
      { clientName := some "Edge", webhookUrl := "u3", webhookVerifyToken := "t3",
        includeMedia := none, syncFullHistory := none, isReconnect := none,
        hasOnConnectionClose := false }).clientName = "Edge" ∧
    (Conn.updateOptions
      { phoneNumber := "+15553330000", clientName := "Chrome", webhookUrl := "u",
        webhookVerifyToken := "t", isReconnect := false, includeMedia := false,
        syncFullHistory := true, hasCloseCb := true,
        socket := some { userId := some "x", credsMe := true },
        clearAuthState := true, clearOnlinePresenceTimeout := true,
        reconnectCount := 7 }
      { clientName := some "Edge", webhookUrl := "u3", webhookVerifyToken := "t3",
        includeMedia := none, syncFullHistory := none, isReconnect := none,
        hasOnConnectionClose := false }).includeMedia = true ∧
    (Conn.updateOptions
      { phoneNumber := "+15553330000", clientName := "Chrome", webhookUrl := "u",
        webhookVerifyToken := "t", isReconnect := false, includeMedia := false,
        syncFullHistory := true, hasCloseCb := true,
        socket := some { userId := some "x", credsMe := true },
        clearAuthState := true, clearOnlinePresenceTimeout := true,
        reconnectCount := 7 }
      { clientName := some "Edge", webhookUrl := "u3", webhookVerifyToken := "t3",
        includeMedia := none, syncFullHistory := none, isReconnect := none,
        hasOnConnectionClose := false }).reconnectCount = 7 := by
  have h := update_options_characterization
    { phoneNumber := "+15553330000", clientName := "Chrome", webhookUrl := "u",
      webhookVerifyToken := "t", isReconnect := false, includeMedia := false,
      syncFullHistory := true, hasCloseCb := true,
      socket := some { userId := some "x", credsMe := true },
      clearAuthState := true, clearOnlinePresenceTimeout := true,
      reconnectCount := 7 }
    { clientName := some "Edge", webhookUrl := "u3", webhookVerifyToken := "t3",
      includeMedia := none, syncFullHistory := none, isReconnect := none,
      hasOnConnectionClose := false }
  exact ⟨h.2.2.2.2.1 "Edge" rfl (by decide), h.2.2.1.2 rfl, h.1.2.2.1⟩

end BaileysApi
